import Mathlib

/-!
Verification of the conversation-engine core of a chat client.

The development shallowly embeds the JavaScript source of the repository:
the record store (`frontend/src/db/database.js`), the delivery queue and
turn builder (`ChatbotScreen`), and the HTTP error-classification layer
(the API service module).  Persistent state is modelled as explicit lists
of records; asynchronous network calls are modelled by passing the outcome
of each call as an explicit parameter.
-/

namespace ChatCore

/-- Message role, the `role` column of the `messages` table. -/
inductive Role where
  | user
  | assistant
deriving DecidableEq, Repr

/-- Delivery status of a user message (`status` column):
`sending`, `queued`, `failed` or `sent`. -/
inductive Status where
  | sending
  | queued
  | failed
  | sent
deriving DecidableEq, Repr

/-- A row of the `messages` table, as returned by `chatDb` (snake_case
fields).  Identifiers and timestamps are naturals; `parent_message_id` is
`none` for an anchor message.  The in-memory camelCase alias
`parentMessageId` used by some UI paths is identified with
`parent_message_id` here. -/
structure Message where
  id : Nat
  session_id : Nat
  role : Role
  content : String
  created_at : Nat
  parent_message_id : Option Nat
  status : Status
  retry_count : Nat
deriving DecidableEq, Repr

/-- Maximum automatic retry count, `const MAX_AUTO_RETRY = 3` in
`ChatbotScreen`. -/
def MAX_AUTO_RETRY : Nat := 3

/-- Model of `chatDb.updateMessageStatus(messageId, status, retryCount)`:
the SQL `UPDATE messages SET status = ?, retry_count = ? WHERE id = ?`
(when `retryCount` is `null` only the status column is written, which the
`Option.getD` argument reproduces). -/
def updateMessageStatus (msgs : List Message) (messageId : Nat) (st : Status)
    (retryCount : Option Nat) : List Message :=
  msgs.map fun m =>
    if m.id = messageId then
      { m with status := st, retry_count := retryCount.getD m.retry_count }
    else m

/-- Comparison used by `ORDER BY created_at ASC` and by the turn builder's
`sort((a, b) => (a.created_at || 0) - (b.created_at || 0))`. -/
def msgLE (a b : Message) : Prop := a.created_at ≤ b.created_at

instance : DecidableRel msgLE := fun a b =>
  inferInstanceAs (Decidable (a.created_at ≤ b.created_at))

instance : IsTotal Message msgLE := ⟨fun a b => Nat.le_total a.created_at b.created_at⟩

instance : IsTrans Message msgLE := ⟨fun _ _ _ h h' => Nat.le_trans h h'⟩

/-- Sorting a message list ascending by `created_at`. -/
def sortByCreatedAt (l : List Message) : List Message :=
  l.insertionSort msgLE

/-- Model of `chatDb.listQueuedUserMessages()`:
`SELECT ... FROM messages WHERE role = 'user' AND status = 'queued'
ORDER BY created_at ASC`. -/
def listQueuedUserMessages (msgs : List Message) : List Message :=
  sortByCreatedAt (msgs.filter fun m =>
    decide (m.role = Role.user ∧ m.status = Status.queued))

/-- First half of `chatDb.deleteMessage`: the statement
`DELETE FROM messages WHERE parent_message_id = ?`. -/
def deleteChildren (msgs : List Message) (messageId : Nat) : List Message :=
  msgs.filter fun m => decide (¬ m.parent_message_id = some messageId)

/-- Model of `chatDb.deleteMessage(messageId)`: deletes every message whose
`parent_message_id` equals `messageId`, then the message itself. -/
def deleteMessage (msgs : List Message) (messageId : Nat) : List Message :=
  (deleteChildren msgs messageId).filter fun m => decide (¬ m.id = messageId)

/-! ### The API service module (error classification) -/

/-- The part of a `fetch` `Response` the module reads: `res.ok`,
`res.status`, and the body text `await res.text()`. -/
structure HttpResponse where
  ok : Bool
  status : Nat
  text : String
deriving DecidableEq, Repr

/-- The string-valued fields `handleResponse` reads off a parsed JSON
object body (`data.error`, `data.message`, `data.msg`, `data.detail`,
`data.reason`); a missing field is `none`. -/
structure JsObj where
  errorField : Option String
  messageField : Option String
  msgField : Option String
  detailField : Option String
  reasonField : Option String
deriving DecidableEq, Repr

/-- A JavaScript `Error` as the module uses it: `name`, `message`, the
optional `code` property (set to `'NETWORK_ERROR'` for transport
failures) and the optional `status` property (set for HTTP failures). -/
structure JsError where
  name : String
  message : String
  code : Option String
  status : Option Nat
deriving DecidableEq, Repr

/-- Boolean prefix test on character lists. -/
def isPrefixB : List Char → List Char → Bool
  | [], _ => true
  | _ :: _, [] => false
  | a :: as, b :: bs => a = b && isPrefixB as bs

/-- Boolean substring test on character lists. -/
def isInfixB (pat : List Char) : List Char → Bool
  | [] => isPrefixB pat []
  | c :: rest => isPrefixB pat (c :: rest) || isInfixB pat rest

/-- Model of JavaScript `s.includes(pat)`. -/
def strIncludes (s pat : String) : Bool :=
  isInfixB pat.toList s.toList

/-- Model of JavaScript `s.toLowerCase()` (character-wise lowering). -/
def toLowerStr (s : String) : String :=
  String.mk (s.data.map Char.toLower)

/-- Model of the JavaScript chain `a || b || ... || ''` over possibly
missing, possibly empty string fields: the first present non-empty string,
else the empty string. -/
def firstNonEmpty : List (Option String) → String
  | [] => ""
  | some s :: rest => if s = "" then firstNonEmpty rest else s
  | none :: rest => firstNonEmpty rest

/-- The `serverMessage` computed by `handleResponse`: field extraction when
the body parsed to a JSON object, otherwise the raw body text (when
non-empty).  `data` is the result of `JSON.parse(text)`; `none` stands for
a body that did not parse to a JavaScript object (parse failure keeps
`data = null` in the source, and non-object values fall through to the
text branch identically). -/
def serverMessageOf (text : String) (data : Option JsObj) : String :=
  match data with
  | some o =>
      firstNonEmpty [o.errorField, o.messageField, o.msgField, o.detailField, o.reasonField]
  | none => if text = "" then "" else text

/-- The status-dependent friendly message chosen by `handleResponse`. -/
def friendlyOf (status : Nat) : String :=
  if 500 ≤ status then
    "AI 服务暂时不可用，请稍后重试。如果你正在本地开发，请检查后端控制台日志是否有错误。"
  else if status = 429 then
    "请求过于频繁，请稍后再试。如在本地测试，请适当放慢提问频率。"
  else if status = 400 then
    "请求参数异常，请检查提问内容或图片大小是否合理，然后再试一次。"
  else if status = 401 ∨ status = 403 then
    "认证失败或无权限访问。请确认后端已正确配置 DASHSCOPE_API_KEY，并且密钥没有过期或被撤销。"
  else
    "请求失败，请稍后重试。如果问题持续出现，请检查后端服务配置。"

/-- Model of `handleResponse(res)`: on `!res.ok` it throws an `Error`
whose message is the friendly text (with the server detail appended when
not already contained), carrying `error.status = res.status` and no
`code`; on success it returns the parsed data (`data ?? {}`). -/
def handleResponse (res : HttpResponse) (data : Option JsObj) :
    Except JsError (Option JsObj) :=
  if res.ok then
    Except.ok data
  else
    let serverMessage := serverMessageOf res.text data
    let friendly := friendlyOf res.status
    let message :=
      if serverMessage ≠ "" ∧ strIncludes friendly serverMessage = false then
        friendly ++ "（详情：" ++ serverMessage ++ "）"
      else friendly
    Except.error { name := "Error", message := message, code := none, status := some res.status }

/-- The substring heuristic of `handleNetworkError`: typical React Native
fetch network failures, matched on the error message. -/
def isTransportNetworkMessage (message : String) : Bool :=
  strIncludes message "Network request failed" ||
  strIncludes message "Network request timed out" ||
  strIncludes (toLowerStr message) "timeout"

/-- The replacement message `handleNetworkError` attaches to a
network-classified failure: it asserts the backend could not be reached. -/
def NETWORK_ERROR_TEXT : String :=
  "无法连接到后端服务。\n\n请检查：\n- 当前设备是否已连接网络；\n- 后端是否已在本机 4000 端口启动；\n- 如在真机上测试，请确认 EXPO_PUBLIC_BACKEND_URL 指向你的电脑 IP 地址。"

/-- Model of `handleNetworkError(error)`: an error whose message matches
the network patterns is replaced by a fresh `Error` with
`code = 'NETWORK_ERROR'`; an `AbortError` is replaced by a plain timeout
message without a code; every other error is rethrown unchanged. -/
def handleNetworkError (error : JsError) : JsError :=
  if isTransportNetworkMessage error.message then
    { name := "Error", message := NETWORK_ERROR_TEXT,
      code := some "NETWORK_ERROR", status := none }
  else if error.name = "AbortError" then
    { name := "Error", message := "请求超时，请检查网络状态或稍后重试。",
      code := none, status := none }
  else error

/-- Outcome of the `fetch` call inside `sendMessageToBackend`: either the
promise resolved with a response (whose body parsed to `data`), or the
transport rejected with an error. -/
inductive FetchOutcome where
  | response (res : HttpResponse) (data : Option JsObj)
  | reject (e : JsError)
deriving DecidableEq, Repr

/-- Model of `sendMessageToBackend`: `handleResponse` runs inside the
`try`, so both a transport rejection and an error thrown by
`handleResponse` are routed through `handleNetworkError`. -/
def sendMessageToBackend (f : FetchOutcome) : Except JsError (Option JsObj) :=
  match f with
  | FetchOutcome.response res data =>
      match handleResponse res data with
      | Except.ok d => Except.ok d
      | Except.error e => Except.error (handleNetworkError e)
  | FetchOutcome.reject e => Except.error (handleNetworkError e)

/-! ### The delivery queue (`resendUserMessage`, `retryQueuedMessages`) -/

/-- Outcome of the completion call a delivery attempt makes: either the
backend replied, or an error was thrown (already transformed by the API
module, so classification is read off `JsError.code`). -/
inductive AttemptOutcome where
  | success (reply : String)
  | failure (e : JsError)
deriving DecidableEq, Repr

/-- The durable store together with its identity generator and the trace
of completion requests issued to the remote service (ids of the user
messages sent, in order). -/
structure StoreState where
  msgs : List Message
  nextId : Nat
  sentRequests : List Nat
deriving DecidableEq, Repr

/-- Model of `resendUserMessage(messageRecord, { force })` from
`ChatbotScreen`: write `sending`, issue the completion call, then on
success persist `sent` with retry count 0 and append one assistant message
parented to the anchor; on a failure whose `code` is `'NETWORK_ERROR'`
compute `nextRetry = force ? 0 : retry_count + 1` and persist `queued`,
or `failed` when `!force && nextRetry >= MAX_AUTO_RETRY`; on any other
failure persist `failed` with the retry count unchanged.  The `outcome`
parameter is the result of the `sendMessageToBackend` call and `now` the
insertion timestamp of the assistant row.  The source's guard on a falsy
session id is kept (`session_id = 0`). -/
def resendUserMessage (st : StoreState) (rec : Message) (force : Bool)
    (outcome : AttemptOutcome) (now : Nat) : StoreState :=
  if rec.session_id = 0 then st
  else
    let st1 : StoreState :=
      { st with
        msgs := updateMessageStatus st.msgs rec.id Status.sending (some rec.retry_count),
        sentRequests := st.sentRequests ++ [rec.id] }
    match outcome with
    | AttemptOutcome.success reply =>
        let aiMsg : Message :=
          { id := st.nextId, session_id := rec.session_id, role := Role.assistant,
            content := reply, created_at := now,
            parent_message_id := some (rec.parent_message_id.getD rec.id),
            status := Status.sent, retry_count := 0 }
        { st1 with
          msgs := updateMessageStatus st1.msgs rec.id Status.sent (some 0) ++ [aiMsg],
          nextId := st.nextId + 1 }
    | AttemptOutcome.failure e =>
        if e.code = some "NETWORK_ERROR" then
          let baseRetry := rec.retry_count
          let nextRetry := if force then 0 else baseRetry + 1
          let reachedLimit : Bool := !force && decide (MAX_AUTO_RETRY ≤ nextRetry)
          let nextStatus := if reachedLimit then Status.failed else Status.queued
          { st1 with msgs := updateMessageStatus st1.msgs rec.id nextStatus (some nextRetry) }
        else
          { st1 with
            msgs := updateMessageStatus st1.msgs rec.id Status.failed (some rec.retry_count) }

/-- Model of `retryQueuedMessages`: fetch the queued user messages once,
then resend each snapshot serially, non-forced, in the fetched order.  The
environment `env` supplies the outcome of the n-th completion call of the
run. -/
def retryQueuedMessages (st : StoreState) (env : Nat → AttemptOutcome) (now : Nat) :
    StoreState :=
  (listQueuedUserMessages st.msgs).foldl
    (fun s msg => resendUserMessage s msg false (env s.sentRequests.length) now) st

/-! ### The turn builder (`buildTurns`) -/

/-- A value of the `anchors` map in `buildTurns`: the user versions and
assistant versions collected so far for one anchor. -/
structure Entry where
  userVersions : List Message
  assistantVersions : List Message
deriving DecidableEq, Repr

/-- Model of the JavaScript `Map` keyed by anchor id, as an association
list in insertion order. -/
abbrev AnchorMap := List (Nat × Entry)

/-- Model of `anchors.has(k)`. -/
def hasAnchor (m : AnchorMap) (k : Nat) : Bool :=
  m.any fun p => p.1 = k

/-- Model of `anchors.get(k)`. -/
def getAnchor (m : AnchorMap) (k : Nat) : Option Entry :=
  (m.find? fun p => p.1 = k).map Prod.snd

/-- Model of mutating `anchors.get(k)` in place. -/
def updAnchor (k : Nat) (f : Entry → Entry) : AnchorMap → AnchorMap
  | [] => []
  | p :: rest => if p.1 = k then (p.1, f p.2) :: rest else p :: updAnchor k f rest

/-- First pass of `buildTurns`: an anchor entry (keyed by its own id, with
a slot in `order`) for every `user` message without `parent_message_id`;
a duplicate anchor id is `unshift`ed onto the existing user-version
list. -/
def step1 (st : AnchorMap × List Nat) (msg : Message) : AnchorMap × List Nat :=
  match msg.role, msg.parent_message_id with
  | Role.user, none =>
      if hasAnchor st.1 msg.id then
        (updAnchor msg.id (fun e => { e with userVersions := msg :: e.userVersions }) st.1, st.2)
      else
        (st.1 ++ [(msg.id, ⟨[msg], []⟩)], st.2 ++ [msg.id])
  | _, _ => st

/-- Second pass of `buildTurns`: a `user` message with a parent is pushed
onto its anchor's user-version list, an `assistant` message with a parent
onto the assistant-version list; an unseen anchor id creates a synthetic
entry and takes its order slot at that point.  An assistant message with
no parent is not attached anywhere. -/
def step2 (st : AnchorMap × List Nat) (msg : Message) : AnchorMap × List Nat :=
  match msg.role, msg.parent_message_id with
  | Role.user, some anchorId =>
      if hasAnchor st.1 anchorId then
        (updAnchor anchorId (fun e => { e with userVersions := e.userVersions ++ [msg] }) st.1,
          st.2)
      else
        (st.1 ++ [(anchorId, ⟨[msg], []⟩)], st.2 ++ [anchorId])
  | Role.assistant, some anchorId =>
      if hasAnchor st.1 anchorId then
        (updAnchor anchorId
          (fun e => { e with assistantVersions := e.assistantVersions ++ [msg] }) st.1, st.2)
      else
        (st.1 ++ [(anchorId, ⟨[], [msg]⟩)], st.2 ++ [anchorId])
  | _, _ => st

/-- The two collection passes of `buildTurns` over the raw message list:
returns the anchor map and the anchor order. -/
def collectAnchors (rawMessages : List Message) : AnchorMap × List Nat :=
  rawMessages.foldl step2 (rawMessages.foldl step1 ([], []))

/-- A derived conversational turn: the anchor id, the displayed user and
assistant version lists, and the default display index. -/
structure Turn where
  anchorUserId : Nat
  userVersions : List Message
  assistantVersions : List Message
  defaultIndex : Nat
deriving DecidableEq, Repr

/-- The per-anchor body of `buildTurns`: sort both version lists by
creation time, truncate both to the pairable count
`min |userVersions| |assistantVersions|` when it is positive, and compute
the default display index (last assistant index, else 0). -/
def mkTurn (anchors : AnchorMap) (anchorUserId : Nat) : Turn :=
  let entry := (getAnchor anchors anchorUserId).getD ⟨[], []⟩
  let userVersions := sortByCreatedAt entry.userVersions
  let assistantVersions := sortByCreatedAt entry.assistantVersions
  let pairedCount := min userVersions.length assistantVersions.length
  let safeUserVersions := if 0 < pairedCount then userVersions.take pairedCount else userVersions
  let safeAssistantVersions :=
    if 0 < pairedCount then assistantVersions.take pairedCount else assistantVersions
  let total := safeAssistantVersions.length
  { anchorUserId := anchorUserId,
    userVersions := safeUserVersions,
    assistantVersions := safeAssistantVersions,
    defaultIndex := if 0 < total then total - 1 else 0 }

/-- Model of `buildTurns(rawMessages)`: collect anchors and versions over
the flat message list, then emit one turn per anchor in first-seen
order. -/
def buildTurns (rawMessages : List Message) : List Turn :=
  let st := collectAnchors rawMessages
  st.2.map (mkTurn st.1)

/-! ### The version navigator (`handleTurnVersionChange`) -/

/-- Direction of a version-navigation step. -/
inductive Direction where
  | prev
  | next
deriving DecidableEq, Repr

/-- The `turnVersionIndices` state object: anchor id to current version
index, as an association list. -/
abbrev VersionIndices := List (Nat × Nat)

/-- Reading `prev[anchorUserId]` off the state object. -/
def lookupIdx (st : VersionIndices) (k : Nat) : Option Nat :=
  (st.find? fun p => p.1 = k).map Prod.snd

/-- Model of the object spread `{ ...prev, [anchorUserId]: newIndex }`:
overwrite the key if present, else append it. -/
def setIdx : VersionIndices → Nat → Nat → VersionIndices
  | [], k, v => [(k, v)]
  | p :: rest, k, v => if p.1 = k then (k, v) :: rest else p :: setIdx rest k v

/-- The current and computed index of one `handleTurnVersionChange` call:
the current index defaults to `totalVersions - 1` when unset; `prev` steps
to `max 0 (current - 1)` (natural subtraction), `next` to
`min (totalVersions - 1) (current + 1)`. -/
def computedIndex (st : VersionIndices) (anchorUserId : Nat) (dir : Direction)
    (totalVersions : Nat) : Nat × Nat :=
  let currentIndex := (lookupIdx st anchorUserId).getD (totalVersions - 1)
  let newIndex :=
    match dir with
    | Direction.prev => currentIndex - 1
    | Direction.next => min (totalVersions - 1) (currentIndex + 1)
  (currentIndex, newIndex)

/-- Model of `handleTurnVersionChange(anchorUserId, direction,
totalVersions)`: a falsy anchor id or `totalVersions <= 1` returns the
state unchanged; otherwise the clamped step is taken, and a computed index
equal to the current one returns the previous state object (no-op). -/
def handleTurnVersionChange (st : VersionIndices) (anchorUserId : Nat) (dir : Direction)
    (totalVersions : Nat) : VersionIndices :=
  if anchorUserId = 0 ∨ totalVersions ≤ 1 then st
  else
    let c := computedIndex st anchorUserId dir totalVersions
    if c.2 = c.1 then st else setIdx st anchorUserId c.2

/-- A sequence of version-navigation calls, each naming an anchor and a
direction; `totals` gives each anchor's (fixed) total version count. -/
def runCalls (totals : Nat → Nat) (st : VersionIndices) (calls : List (Nat × Direction)) :
    VersionIndices :=
  calls.foldl (fun s c => handleTurnVersionChange s c.1 c.2 (totals c.1)) st

instance : DecidableEq (Except JsError (Option JsObj)) := fun a b =>
  match a, b with
  | Except.ok x, Except.ok y => decidable_of_iff (x = y) (by simp)
  | Except.ok _, Except.error _ => isFalse (by simp)
  | Except.error _, Except.ok _ => isFalse (by simp)
  | Except.error x, Except.error y => decidable_of_iff (x = y) (by simp)

/-- Concrete message list for exercising the turn builder: one anchor
(id 1) with two edited user versions (ids 2, 3) and two assistant replies
(ids 4, 5), the shape of a turn with three user versions and two
assistant versions. -/
def msgsPairingExample : List Message :=
  [{ id := 1, session_id := 1, role := Role.user, content := "", created_at := 1,
     parent_message_id := none, status := Status.sent, retry_count := 0 },
   { id := 2, session_id := 1, role := Role.user, content := "", created_at := 2,
     parent_message_id := some 1, status := Status.sent, retry_count := 0 },
   { id := 3, session_id := 1, role := Role.user, content := "", created_at := 3,
     parent_message_id := some 1, status := Status.sent, retry_count := 0 },
   { id := 4, session_id := 1, role := Role.assistant, content := "", created_at := 4,
     parent_message_id := some 1, status := Status.sent, retry_count := 0 },
   { id := 5, session_id := 1, role := Role.assistant, content := "", created_at := 5,
     parent_message_id := some 1, status := Status.sent, retry_count := 0 }]

/-- The turn `buildTurns` derives from `msgsPairingExample`: two aligned
pairs (the third user version is truncated away), default index 1. -/
def turnPairingExample : Turn :=
  { anchorUserId := 1,
    userVersions :=
      [{ id := 1, session_id := 1, role := Role.user, content := "", created_at := 1,
         parent_message_id := none, status := Status.sent, retry_count := 0 },
       { id := 2, session_id := 1, role := Role.user, content := "", created_at := 2,
         parent_message_id := some 1, status := Status.sent, retry_count := 0 }],
    assistantVersions :=
      [{ id := 4, session_id := 1, role := Role.assistant, content := "", created_at := 4,
         parent_message_id := some 1, status := Status.sent, retry_count := 0 },
       { id := 5, session_id := 1, role := Role.assistant, content := "", created_at := 5,
         parent_message_id := some 1, status := Status.sent, retry_count := 0 }],
    defaultIndex := 1 }

/-! ### Helper lemmas -/

theorem length_updateMessageStatus (msgs : List Message) (i : Nat) (s : Status)
    (rc : Option Nat) : (updateMessageStatus msgs i s rc).length = msgs.length :=
  List.length_map msgs _

theorem mem_updateMessageStatus_self {msgs : List Message} {i : Nat} {s : Status} {rc : Nat}
    {m : Message} (hm : m ∈ updateMessageStatus msgs i s (some rc)) (hid : m.id = i) :
    m.status = s ∧ m.retry_count = rc := by
  rcases List.mem_map.mp hm with ⟨m₀, hm₀, heq⟩
  by_cases h : m₀.id = i
  · rw [if_pos h] at heq
    subst heq
    exact ⟨rfl, rfl⟩
  · rw [if_neg h] at heq
    subst heq
    exact absurd hid h

theorem mem_updateMessageStatus_of_ne {msgs : List Message} {m : Message} (hm : m ∈ msgs)
    {i : Nat} (hne : ¬ m.id = i) (s : Status) (rc : Option Nat) :
    m ∈ updateMessageStatus msgs i s rc := by
  refine List.mem_map.mpr ⟨m, hm, ?_⟩
  rw [if_neg hne]

theorem mem_listQueuedUserMessages {msgs : List Message} {m : Message} :
    m ∈ listQueuedUserMessages msgs ↔
      m ∈ msgs ∧ m.role = Role.user ∧ m.status = Status.queued := by
  unfold listQueuedUserMessages sortByCreatedAt
  rw [(List.perm_insertionSort msgLE _).mem_iff, List.mem_filter]
  simp only [decide_eq_true_eq]

theorem resend_sentRequests (st : StoreState) (rec : Message) (force : Bool)
    (outcome : AttemptOutcome) (now : Nat) (hs : ¬ rec.session_id = 0) :
    (resendUserMessage st rec force outcome now).sentRequests =
      st.sentRequests ++ [rec.id] := by
  unfold resendUserMessage
  rw [if_neg hs]
  cases outcome with
  | success reply => rfl
  | failure e =>
      by_cases hc : e.code = some "NETWORK_ERROR"
      · simp only [if_pos hc]
      · simp only [if_neg hc]

/-! ### Claim C7: cascade delete -/

/-- C7: `deleteMessage anchorId` removes exactly the anchor message and every
message whose `parent_message_id` equals the anchor, and no other message;
the intermediate state after the first delete statement holds no message
whose parent is the anchor, so no partial failure can leave a child
without its anchor. -/
theorem delete_message_cascade (msgs : List Message) (anchorId : Nat) :
    (∀ m, m ∈ deleteMessage msgs anchorId ↔
        m ∈ msgs ∧ ¬ m.id = anchorId ∧ ¬ m.parent_message_id = some anchorId) ∧
    (∀ m ∈ deleteChildren msgs anchorId, ¬ m.parent_message_id = some anchorId) := by
  constructor
  · intro m
    unfold deleteMessage deleteChildren
    simp only [List.mem_filter, decide_eq_true_eq]
    tauto
  · intro m hm
    unfold deleteChildren at hm
    exact (decide_eq_true_eq.mp (List.mem_filter.mp hm).2)

/-- Witness for C7 at a concrete store: an anchor with one child and one
unrelated message. -/
theorem delete_message_cascade_witness :
    (({ id := 3, session_id := 1, role := Role.user, content := "", created_at := 3,
        parent_message_id := none, status := Status.sent, retry_count := 0 } : Message) ∈
      deleteMessage
        [{ id := 1, session_id := 1, role := Role.user, content := "", created_at := 1,
           parent_message_id := none, status := Status.sent, retry_count := 0 },
         { id := 2, session_id := 1, role := Role.assistant, content := "", created_at := 2,
           parent_message_id := some 1, status := Status.sent, retry_count := 0 },
         { id := 3, session_id := 1, role := Role.user, content := "", created_at := 3,
           parent_message_id := none, status := Status.sent, retry_count := 0 }] 1 ↔
      ({ id := 3, session_id := 1, role := Role.user, content := "", created_at := 3,
         parent_message_id := none, status := Status.sent, retry_count := 0 } : Message) ∈
        [{ id := 1, session_id := 1, role := Role.user, content := "", created_at := 1,
           parent_message_id := none, status := Status.sent, retry_count := 0 },
         { id := 2, session_id := 1, role := Role.assistant, content := "", created_at := 2,
           parent_message_id := some 1, status := Status.sent, retry_count := 0 },
         { id := 3, session_id := 1, role := Role.user, content := "", created_at := 3,
           parent_message_id := none, status := Status.sent, retry_count := 0 }] ∧
        ¬ (3 : Nat) = 1 ∧ ¬ (none : Option Nat) = some 1) :=
  (delete_message_cascade _ 1).1 _

/-! ### Claim C9: idempotent replay -/

/-- C9: invoking the queue replay when no message is queued is a no-op:
the store, the identity generator and the request trace are unchanged, so
no write and no network call happens. -/
theorem replay_noop_when_no_queued (st : StoreState) (env : Nat → AttemptOutcome)
    (now : Nat) (h : listQueuedUserMessages st.msgs = []) :
    retryQueuedMessages st env now = st := by
  unfold retryQueuedMessages
  rw [h]
  rfl

/-- Witness for C9: a store holding one sent and one failed message has no
queued message, and replay leaves it unchanged. -/
theorem replay_noop_when_no_queued_witness :
    retryQueuedMessages
      ⟨[{ id := 1, session_id := 1, role := Role.user, content := "", created_at := 1,
          parent_message_id := none, status := Status.sent, retry_count := 0 },
        { id := 2, session_id := 1, role := Role.user, content := "", created_at := 2,
          parent_message_id := none, status := Status.failed, retry_count := 3 }], 5, []⟩
      (fun _ => AttemptOutcome.success "") 7 =
      ⟨[{ id := 1, session_id := 1, role := Role.user, content := "", created_at := 1,
          parent_message_id := none, status := Status.sent, retry_count := 0 },
        { id := 2, session_id := 1, role := Role.user, content := "", created_at := 2,
          parent_message_id := none, status := Status.failed, retry_count := 3 }], 5, []⟩ :=
  replay_noop_when_no_queued _ _ 7 (by decide)

/-! ### Claim C1: auto-retry ceiling -/

/-- Counterexample to C1 as stated: a user message with
`retry_count = 2 < MAX_AUTO_RETRY = 3` whose non-forced delivery attempt
fails with a network-classified error is marked `failed` (with
retry count 3), not `queued`. -/
theorem network_failure_below_ceiling_fails :
    ({ id := 5, session_id := 1, role := Role.user, content := "", created_at := 5,
       parent_message_id := none, status := Status.queued, retry_count := 2 } : Message).retry_count
        < MAX_AUTO_RETRY ∧
    (resendUserMessage
        ⟨[{ id := 5, session_id := 1, role := Role.user, content := "", created_at := 5,
            parent_message_id := none, status := Status.queued, retry_count := 2 }], 10, []⟩
        { id := 5, session_id := 1, role := Role.user, content := "", created_at := 5,
          parent_message_id := none, status := Status.queued, retry_count := 2 }
        false
        (AttemptOutcome.failure ⟨"Error", "net down", some "NETWORK_ERROR", none⟩)
        99).msgs =
      [{ id := 5, session_id := 1, role := Role.user, content := "", created_at := 5,
         parent_message_id := none, status := Status.failed, retry_count := 3 }] := by
  exact ⟨by decide, by decide⟩

/-- C1 (amended): on a non-forced network-classified failure the message's
retry count is incremented; the message is re-queued when the incremented
count is still below `MAX_AUTO_RETRY` (pre-attempt count below
`MAX_AUTO_RETRY - 1`) and becomes `failed` once the incremented count
reaches `MAX_AUTO_RETRY`, after which the queue-replay selection never
picks it up again. -/
theorem network_failure_requeue_or_fail (st : StoreState) (rec : Message) (e : JsError)
    (now : Nat) (hs : ¬ rec.session_id = 0) (hc : e.code = some "NETWORK_ERROR") :
    ∀ m ∈ (resendUserMessage st rec false (AttemptOutcome.failure e) now).msgs,
      m.id = rec.id →
        m.retry_count = rec.retry_count + 1 ∧
        m.status =
          (if rec.retry_count + 1 < MAX_AUTO_RETRY then Status.queued else Status.failed) ∧
        (MAX_AUTO_RETRY ≤ rec.retry_count + 1 →
          m ∉ listQueuedUserMessages
            (resendUserMessage st rec false (AttemptOutcome.failure e) now).msgs) := by
  intro m hm hid
  have hmsgs :
      (resendUserMessage st rec false (AttemptOutcome.failure e) now).msgs =
        updateMessageStatus
          (updateMessageStatus st.msgs rec.id Status.sending (some rec.retry_count)) rec.id
          (if (!false && decide (MAX_AUTO_RETRY ≤ (if false then 0 else rec.retry_count + 1) : Prop))
             then Status.failed else Status.queued)
          (some (if false then 0 else rec.retry_count + 1)) := by
    unfold resendUserMessage
    rw [if_neg hs]
    simp only [if_pos hc]
  rw [hmsgs] at hm
  have hfields := mem_updateMessageStatus_self hm hid
  simp only [Bool.not_false, Bool.true_and, if_neg (by simp : ¬ False)] at hfields
  by_cases hlim : MAX_AUTO_RETRY ≤ rec.retry_count + 1
  · have hstat : m.status = Status.failed := by
      rw [hfields.1]
      simp [hlim]
    refine ⟨hfields.2, ?_, ?_⟩
    · rw [if_neg (by omega), hstat]
    · intro _ hmem
      have := (mem_listQueuedUserMessages.mp hmem).2.2
      rw [hstat] at this
      exact Status.noConfusion this
  · have hstat : m.status = Status.queued := by
      rw [hfields.1]
      simp [hlim]
    refine ⟨hfields.2, ?_, fun h => absurd h hlim⟩
    rw [if_pos (by omega), hstat]

/-- Witness for the amended C1 at a concrete input: a first failure
(retry count 0) re-queues with retry count 1. -/
theorem network_failure_requeue_or_fail_witness :
    ({ id := 5, session_id := 1, role := Role.user, content := "", created_at := 5,
       parent_message_id := none, status := Status.queued, retry_count := 1 } : Message).retry_count =
        ({ id := 5, session_id := 1, role := Role.user, content := "", created_at := 5,
           parent_message_id := none, status := Status.sending, retry_count := 0 } : Message).retry_count + 1 ∧
    ({ id := 5, session_id := 1, role := Role.user, content := "", created_at := 5,
       parent_message_id := none, status := Status.queued, retry_count := 1 } : Message).status =
      (if ({ id := 5, session_id := 1, role := Role.user, content := "", created_at := 5,
             parent_message_id := none, status := Status.sending, retry_count := 0 } : Message).retry_count + 1
            < MAX_AUTO_RETRY
        then Status.queued else Status.failed) ∧
    (MAX_AUTO_RETRY ≤
        ({ id := 5, session_id := 1, role := Role.user, content := "", created_at := 5,
           parent_message_id := none, status := Status.sending, retry_count := 0 } : Message).retry_count + 1 →
      ({ id := 5, session_id := 1, role := Role.user, content := "", created_at := 5,
         parent_message_id := none, status := Status.queued, retry_count := 1 } : Message) ∉
        listQueuedUserMessages
          (resendUserMessage
            ⟨[{ id := 5, session_id := 1, role := Role.user, content := "", created_at := 5,
                parent_message_id := none, status := Status.sending, retry_count := 0 }], 10, []⟩
            { id := 5, session_id := 1, role := Role.user, content := "", created_at := 5,
              parent_message_id := none, status := Status.sending, retry_count := 0 }
            false (AttemptOutcome.failure ⟨"Error", "net down", some "NETWORK_ERROR", none⟩)
            99).msgs) :=
  network_failure_requeue_or_fail
    ⟨[{ id := 5, session_id := 1, role := Role.user, content := "", created_at := 5,
        parent_message_id := none, status := Status.sending, retry_count := 0 }], 10, []⟩
    { id := 5, session_id := 1, role := Role.user, content := "", created_at := 5,
      parent_message_id := none, status := Status.sending, retry_count := 0 }
    ⟨"Error", "net down", some "NETWORK_ERROR", none⟩ 99 (by decide) (by decide)
    { id := 5, session_id := 1, role := Role.user, content := "", created_at := 5,
      parent_message_id := none, status := Status.queued, retry_count := 1 }
    (by decide) (by decide)

/-! ### Claim C2: manual (forced) retry -/

/-- Counterexample to C2 as stated: a forced retry of a failed user
message with retry count 2 re-queues the message on a network-classified
failure (status `queued`, so not only `sent`/`failed`), and on a business
failure keeps retry count 2 instead of resetting it to 0. -/
theorem manual_retry_requeues_and_keeps_retry_count :
    (resendUserMessage
        ⟨[{ id := 5, session_id := 1, role := Role.user, content := "", created_at := 5,
            parent_message_id := none, status := Status.failed, retry_count := 2 }], 10, []⟩
        { id := 5, session_id := 1, role := Role.user, content := "", created_at := 5,
          parent_message_id := none, status := Status.failed, retry_count := 2 }
        true (AttemptOutcome.failure ⟨"Error", "net down", some "NETWORK_ERROR", none⟩)
        99).msgs =
      [{ id := 5, session_id := 1, role := Role.user, content := "", created_at := 5,
         parent_message_id := none, status := Status.queued, retry_count := 0 }] ∧
    (resendUserMessage
        ⟨[{ id := 5, session_id := 1, role := Role.user, content := "", created_at := 5,
            parent_message_id := none, status := Status.failed, retry_count := 2 }], 10, []⟩
        { id := 5, session_id := 1, role := Role.user, content := "", created_at := 5,
          parent_message_id := none, status := Status.failed, retry_count := 2 }
        true (AttemptOutcome.failure ⟨"Error", "HTTP 400", none, some 400⟩)
        99).msgs =
      [{ id := 5, session_id := 1, role := Role.user, content := "", created_at := 5,
         parent_message_id := none, status := Status.failed, retry_count := 2 }] := by
  exact ⟨by decide, by decide⟩

/-- C2 (amended): a forced retry ends `sent` with retry count 0 on
success, `queued` with retry count 0 on a network-classified failure (it
does re-queue, with the retry budget reset), and `failed` with the retry
count unchanged (not reset) on a business-classified failure. -/
theorem manual_retry_state (st : StoreState) (rec : Message) (now : Nat)
    (hs : ¬ rec.session_id = 0) :
    (∀ reply : String,
      ∀ m ∈ (resendUserMessage st rec true (AttemptOutcome.success reply) now).msgs,
        m.id = rec.id → m.status = Status.sent ∧ m.retry_count = 0) ∧
    (∀ e : JsError, e.code = some "NETWORK_ERROR" →
      ∀ m ∈ (resendUserMessage st rec true (AttemptOutcome.failure e) now).msgs,
        m.id = rec.id → m.status = Status.queued ∧ m.retry_count = 0) ∧
    (∀ e : JsError, ¬ e.code = some "NETWORK_ERROR" →
      ∀ m ∈ (resendUserMessage st rec true (AttemptOutcome.failure e) now).msgs,
        m.id = rec.id → m.status = Status.failed ∧ m.retry_count = rec.retry_count) := by
  refine ⟨?_, ?_, ?_⟩
  · intro reply m hm hid
    have hmsgs :
        (resendUserMessage st rec true (AttemptOutcome.success reply) now).msgs =
          updateMessageStatus
              (updateMessageStatus st.msgs rec.id Status.sending (some rec.retry_count)) rec.id
              Status.sent (some 0) ++
            [{ id := st.nextId, session_id := rec.session_id, role := Role.assistant,
               content := reply, created_at := now,
               parent_message_id := some (rec.parent_message_id.getD rec.id),
               status := Status.sent, retry_count := 0 }] := by
      unfold resendUserMessage
      rw [if_neg hs]
    rw [hmsgs] at hm
    rcases List.mem_append.mp hm with hm | hm
    · exact mem_updateMessageStatus_self hm hid
    · rw [List.mem_singleton.mp hm]
      exact ⟨rfl, rfl⟩
  · intro e hc m hm hid
    have hmsgs :
        (resendUserMessage st rec true (AttemptOutcome.failure e) now).msgs =
          updateMessageStatus
            (updateMessageStatus st.msgs rec.id Status.sending (some rec.retry_count)) rec.id
            Status.queued (some 0) := by
      unfold resendUserMessage
      rw [if_neg hs]
      simp only [if_pos hc]
      rfl
    rw [hmsgs] at hm
    exact mem_updateMessageStatus_self hm hid
  · intro e hc m hm hid
    have hmsgs :
        (resendUserMessage st rec true (AttemptOutcome.failure e) now).msgs =
          updateMessageStatus
            (updateMessageStatus st.msgs rec.id Status.sending (some rec.retry_count)) rec.id
            Status.failed (some rec.retry_count) := by
      unfold resendUserMessage
      rw [if_neg hs]
      simp only [if_neg hc]
    rw [hmsgs] at hm
    exact mem_updateMessageStatus_self hm hid

/-- Witness for the amended C2: a forced retry hitting a network failure
ends queued with retry count 0. -/
theorem manual_retry_state_witness :
    ({ id := 5, session_id := 1, role := Role.user, content := "", created_at := 5,
       parent_message_id := none, status := Status.queued, retry_count := 0 } : Message).status =
        Status.queued ∧
    ({ id := 5, session_id := 1, role := Role.user, content := "", created_at := 5,
       parent_message_id := none, status := Status.queued, retry_count := 0 } : Message).retry_count = 0 :=
  (manual_retry_state
      ⟨[{ id := 5, session_id := 1, role := Role.user, content := "", created_at := 5,
          parent_message_id := none, status := Status.failed, retry_count := 2 }], 10, []⟩
      { id := 5, session_id := 1, role := Role.user, content := "", created_at := 5,
        parent_message_id := none, status := Status.failed, retry_count := 2 }
      99 (by decide)).2.1
    ⟨"Error", "net down", some "NETWORK_ERROR", none⟩ (by decide)
    { id := 5, session_id := 1, role := Role.user, content := "", created_at := 5,
      parent_message_id := none, status := Status.queued, retry_count := 0 }
    (by decide) (by decide)

/-! ### Claim C4: successful delivery appends one assistant message -/

/-- C4: a successful delivery attempt appends exactly one new message — an
assistant message parented to the anchor of the user message (the
message's own id when it has no parent, else its parent id) — marks the
user message `sent`, and keeps every other message in the store. -/
theorem success_appends_one_assistant (st : StoreState) (rec : Message) (reply : String)
    (now : Nat) (hs : ¬ rec.session_id = 0) :
    (resendUserMessage st rec false (AttemptOutcome.success reply) now).msgs.length =
        st.msgs.length + 1 ∧
    (resendUserMessage st rec false (AttemptOutcome.success reply) now).msgs.getLast? =
      some
        { id := st.nextId, session_id := rec.session_id, role := Role.assistant,
          content := reply, created_at := now,
          parent_message_id := some (rec.parent_message_id.getD rec.id),
          status := Status.sent, retry_count := 0 } ∧
    (∀ m ∈ (resendUserMessage st rec false (AttemptOutcome.success reply) now).msgs,
      m.id = rec.id → m.status = Status.sent) ∧
    (∀ m ∈ st.msgs, ¬ m.id = rec.id →
      m ∈ (resendUserMessage st rec false (AttemptOutcome.success reply) now).msgs) := by
  have hmsgs :
      (resendUserMessage st rec false (AttemptOutcome.success reply) now).msgs =
        updateMessageStatus
            (updateMessageStatus st.msgs rec.id Status.sending (some rec.retry_count)) rec.id
            Status.sent (some 0) ++
          [{ id := st.nextId, session_id := rec.session_id, role := Role.assistant,
             content := reply, created_at := now,
             parent_message_id := some (rec.parent_message_id.getD rec.id),
             status := Status.sent, retry_count := 0 }] := by
    unfold resendUserMessage
    rw [if_neg hs]
  refine ⟨?_, ?_, ?_, ?_⟩
  · rw [hmsgs, List.length_append, length_updateMessageStatus, length_updateMessageStatus,
      List.length_singleton]
  · rw [hmsgs, List.getLast?_concat]
  · intro m hm hid
    rw [hmsgs] at hm
    rcases List.mem_append.mp hm with hm | hm
    · exact (mem_updateMessageStatus_self hm hid).1
    · rw [List.mem_singleton.mp hm]
  · intro m hm hne
    rw [hmsgs]
    exact List.mem_append_left _
      (mem_updateMessageStatus_of_ne (mem_updateMessageStatus_of_ne hm hne _ _) hne _ _)

/-- Witness for C4 at a concrete store: delivering a queued anchor message
appends one assistant reply parented to it. -/
theorem success_appends_one_assistant_witness :
    (resendUserMessage
        ⟨[{ id := 5, session_id := 1, role := Role.user, content := "", created_at := 5,
            parent_message_id := none, status := Status.queued, retry_count := 1 }], 10, []⟩
        { id := 5, session_id := 1, role := Role.user, content := "", created_at := 5,
          parent_message_id := none, status := Status.queued, retry_count := 1 }
        false (AttemptOutcome.success "hello") 99).msgs.length =
      ([{ id := 5, session_id := 1, role := Role.user, content := "", created_at := 5,
          parent_message_id := none, status := Status.queued, retry_count := 1 }] :
        List Message).length + 1 ∧
    (resendUserMessage
        ⟨[{ id := 5, session_id := 1, role := Role.user, content := "", created_at := 5,
            parent_message_id := none, status := Status.queued, retry_count := 1 }], 10, []⟩
        { id := 5, session_id := 1, role := Role.user, content := "", created_at := 5,
          parent_message_id := none, status := Status.queued, retry_count := 1 }
        false (AttemptOutcome.success "hello") 99).msgs.getLast? =
      some
        { id := 10, session_id := 1, role := Role.assistant, content := "hello",
          created_at := 99, parent_message_id := some 5, status := Status.sent,
          retry_count := 0 } :=
  ⟨(success_appends_one_assistant
      ⟨[{ id := 5, session_id := 1, role := Role.user, content := "", created_at := 5,
          parent_message_id := none, status := Status.queued, retry_count := 1 }], 10, []⟩
      { id := 5, session_id := 1, role := Role.user, content := "", created_at := 5,
        parent_message_id := none, status := Status.queued, retry_count := 1 }
      "hello" 99 (by decide)).1,
   (success_appends_one_assistant
      ⟨[{ id := 5, session_id := 1, role := Role.user, content := "", created_at := 5,
          parent_message_id := none, status := Status.queued, retry_count := 1 }], 10, []⟩
      { id := 5, session_id := 1, role := Role.user, content := "", created_at := 5,
        parent_message_id := none, status := Status.queued, retry_count := 1 }
      "hello" 99 (by decide)).2.1⟩

/-! ### Claim C10: every successful delivery resets the retry count -/

/-- C10: any successful delivery — forced or not, in particular the
automatic replay of a queued message with a positive retry count —
persists the user message with status `sent` and retry count 0. -/
theorem success_resets_retry_count (st : StoreState) (rec : Message) (force : Bool)
    (reply : String) (now : Nat) (hs : ¬ rec.session_id = 0) :
    ∀ m ∈ (resendUserMessage st rec force (AttemptOutcome.success reply) now).msgs,
      m.id = rec.id → m.status = Status.sent ∧ m.retry_count = 0 := by
  intro m hm hid
  have hmsgs :
      (resendUserMessage st rec force (AttemptOutcome.success reply) now).msgs =
        updateMessageStatus
            (updateMessageStatus st.msgs rec.id Status.sending (some rec.retry_count)) rec.id
            Status.sent (some 0) ++
          [{ id := st.nextId, session_id := rec.session_id, role := Role.assistant,
             content := reply, created_at := now,
             parent_message_id := some (rec.parent_message_id.getD rec.id),
             status := Status.sent, retry_count := 0 }] := by
    unfold resendUserMessage
    rw [if_neg hs]
  rw [hmsgs] at hm
  rcases List.mem_append.mp hm with hm | hm
  · exact mem_updateMessageStatus_self hm hid
  · rw [List.mem_singleton.mp hm]
    exact ⟨rfl, rfl⟩

/-- Witness for C10: an automatic (non-forced) replay of a queued message
with retry count 2 that succeeds stores status `sent` and retry count 0. -/
theorem success_resets_retry_count_witness :
    ({ id := 5, session_id := 1, role := Role.user, content := "", created_at := 5,
       parent_message_id := none, status := Status.sent, retry_count := 0 } : Message).status =
        Status.sent ∧
    ({ id := 5, session_id := 1, role := Role.user, content := "", created_at := 5,
       parent_message_id := none, status := Status.sent, retry_count := 0 } : Message).retry_count = 0 :=
  success_resets_retry_count
    ⟨[{ id := 5, session_id := 1, role := Role.user, content := "", created_at := 5,
        parent_message_id := none, status := Status.queued, retry_count := 2 }], 10, []⟩
    { id := 5, session_id := 1, role := Role.user, content := "", created_at := 5,
      parent_message_id := none, status := Status.queued, retry_count := 2 }
    false "ok" 99 (by decide)
    { id := 5, session_id := 1, role := Role.user, content := "", created_at := 5,
      parent_message_id := none, status := Status.sent, retry_count := 0 }
    (by decide) (by decide)

/-! ### Claim C8: queued selection and serial replay order -/

theorem retry_loop_trace (queued : List Message) (st : StoreState)
    (env : Nat → AttemptOutcome) (now : Nat) (h : ∀ m ∈ queued, ¬ m.session_id = 0) :
    (queued.foldl
        (fun s msg => resendUserMessage s msg false (env s.sentRequests.length) now)
        st).sentRequests =
      st.sentRequests ++ queued.map Message.id := by
  induction queued generalizing st with
  | nil => simp
  | cons a l ih =>
      simp only [List.foldl_cons, List.map_cons]
      rw [ih _ (fun m hm => h m (List.mem_cons_of_mem a hm)),
        resend_sentRequests _ _ _ _ _ (h a (List.mem_cons_self a l)),
        List.append_assoc]
      rfl

/-- C8: the queued-message query returns exactly the user messages with
status `queued`, sorted ascending by creation time, and the replay routine
issues exactly one completion call per returned message, serially in that
order (the request trace extends by the queued ids in query order). -/
theorem queued_selection_and_serial_order (msgs : List Message) (st : StoreState)
    (env : Nat → AttemptOutcome) (now : Nat) :
    (∀ m, m ∈ listQueuedUserMessages msgs ↔
        m ∈ msgs ∧ m.role = Role.user ∧ m.status = Status.queued) ∧
    List.Sorted msgLE (listQueuedUserMessages msgs) ∧
    ((∀ m ∈ listQueuedUserMessages st.msgs, ¬ m.session_id = 0) →
      (retryQueuedMessages st env now).sentRequests =
        st.sentRequests ++ (listQueuedUserMessages st.msgs).map Message.id) := by
  refine ⟨fun m => mem_listQueuedUserMessages, ?_, ?_⟩
  · exact List.sorted_insertionSort msgLE _
  · intro h
    exact retry_loop_trace _ st env now h

/-- Witness for C8 at a concrete store: two queued messages (created at
times 5 and 3) are replayed oldest-first, so the trace lists id 3 before
id 5. -/
theorem queued_selection_and_serial_order_witness :
    (retryQueuedMessages
        ⟨[{ id := 5, session_id := 1, role := Role.user, content := "", created_at := 5,
            parent_message_id := none, status := Status.queued, retry_count := 1 },
          { id := 3, session_id := 1, role := Role.user, content := "", created_at := 3,
            parent_message_id := none, status := Status.queued, retry_count := 0 }], 10, []⟩
        (fun _ => AttemptOutcome.failure ⟨"Error", "net down", some "NETWORK_ERROR", none⟩)
        99).sentRequests =
      ([] : List Nat) ++
        (listQueuedUserMessages
          [{ id := 5, session_id := 1, role := Role.user, content := "", created_at := 5,
             parent_message_id := none, status := Status.queued, retry_count := 1 },
           { id := 3, session_id := 1, role := Role.user, content := "", created_at := 3,
             parent_message_id := none, status := Status.queued, retry_count := 0 }]).map
          Message.id :=
  (queued_selection_and_serial_order
      [{ id := 5, session_id := 1, role := Role.user, content := "", created_at := 5,
         parent_message_id := none, status := Status.queued, retry_count := 1 },
       { id := 3, session_id := 1, role := Role.user, content := "", created_at := 3,
         parent_message_id := none, status := Status.queued, retry_count := 0 }]
      ⟨[{ id := 5, session_id := 1, role := Role.user, content := "", created_at := 5,
          parent_message_id := none, status := Status.queued, retry_count := 1 },
        { id := 3, session_id := 1, role := Role.user, content := "", created_at := 3,
          parent_message_id := none, status := Status.queued, retry_count := 0 }], 10, []⟩
      (fun _ => AttemptOutcome.failure ⟨"Error", "net down", some "NETWORK_ERROR", none⟩)
      99).2.2 (by decide)

/-! ### Claim C5: error classification -/

/-- C5 (failing input): an HTTP 500 response whose body text is
`"timeout"` (which `JSON.parse` rejects, so `data` stays null and the raw
body becomes the server detail).  `handleResponse` throws a
business-classified error carrying `status = 500` and no code, but
`sendMessageToBackend` routes that thrown error through
`handleNetworkError`, whose substring heuristic finds `"timeout"` in the
message and replaces the error with a network-classified one
(`code = 'NETWORK_ERROR'`, message claiming the backend is unreachable);
`resendUserMessage` then re-queues the message instead of failing it,
contradicting the classification rule that an HTTP 4xx/5xx failure is
business-classified and ends `failed` with the retry count unchanged. -/
theorem http500_timeout_body_classified_network :
    handleResponse ⟨false, 500, "timeout"⟩ none =
      Except.error
        ⟨"Error", friendlyOf 500 ++ "（详情：" ++ "timeout" ++ "）", none, some 500⟩ ∧
    sendMessageToBackend (FetchOutcome.response ⟨false, 500, "timeout"⟩ none) =
      Except.error ⟨"Error", NETWORK_ERROR_TEXT, some "NETWORK_ERROR", none⟩ ∧
    (resendUserMessage
        ⟨[{ id := 5, session_id := 1, role := Role.user, content := "", created_at := 5,
            parent_message_id := none, status := Status.sending, retry_count := 0 }], 10, []⟩
        { id := 5, session_id := 1, role := Role.user, content := "", created_at := 5,
          parent_message_id := none, status := Status.sending, retry_count := 0 }
        false
        (AttemptOutcome.failure ⟨"Error", NETWORK_ERROR_TEXT, some "NETWORK_ERROR", none⟩)
        99).msgs =
      [{ id := 5, session_id := 1, role := Role.user, content := "", created_at := 5,
         parent_message_id := none, status := Status.queued, retry_count := 1 }] := by
  refine ⟨rfl, by decide, by decide⟩

/-! ### Claim C3: turn pairing invariant -/

theorem buildTurns_eq (msgs : List Message) :
    buildTurns msgs = (collectAnchors msgs).2.map (mkTurn (collectAnchors msgs).1) := rfl

theorem mkTurn_anchorUserId (anchors : AnchorMap) (a : Nat) :
    (mkTurn anchors a).anchorUserId = a := rfl

theorem mkTurn_userVersions (anchors : AnchorMap) (a : Nat) :
    (mkTurn anchors a).userVersions =
      (if 0 < min (sortByCreatedAt ((getAnchor anchors a).getD ⟨[], []⟩).userVersions).length
              (sortByCreatedAt ((getAnchor anchors a).getD ⟨[], []⟩).assistantVersions).length
       then (sortByCreatedAt ((getAnchor anchors a).getD ⟨[], []⟩).userVersions).take
              (min (sortByCreatedAt ((getAnchor anchors a).getD ⟨[], []⟩).userVersions).length
                (sortByCreatedAt ((getAnchor anchors a).getD ⟨[], []⟩).assistantVersions).length)
       else sortByCreatedAt ((getAnchor anchors a).getD ⟨[], []⟩).userVersions) := rfl

theorem mkTurn_assistantVersions (anchors : AnchorMap) (a : Nat) :
    (mkTurn anchors a).assistantVersions =
      (if 0 < min (sortByCreatedAt ((getAnchor anchors a).getD ⟨[], []⟩).userVersions).length
              (sortByCreatedAt ((getAnchor anchors a).getD ⟨[], []⟩).assistantVersions).length
       then (sortByCreatedAt ((getAnchor anchors a).getD ⟨[], []⟩).assistantVersions).take
              (min (sortByCreatedAt ((getAnchor anchors a).getD ⟨[], []⟩).userVersions).length
                (sortByCreatedAt ((getAnchor anchors a).getD ⟨[], []⟩).assistantVersions).length)
       else sortByCreatedAt ((getAnchor anchors a).getD ⟨[], []⟩).assistantVersions) := rfl

theorem pair_trunc_length {α : Type} (u v : List α)
    (hu : (if 0 < min u.length v.length then u.take (min u.length v.length) else u) ≠ [])
    (hv : (if 0 < min u.length v.length then v.take (min u.length v.length) else v) ≠ []) :
    (if 0 < min u.length v.length then u.take (min u.length v.length) else u).length =
      (if 0 < min u.length v.length then v.take (min u.length v.length) else v).length := by
  by_cases hp : 0 < min u.length v.length
  · simp only [if_pos hp, List.length_take]
    omega
  · exfalso
    simp only [if_neg hp] at hu hv
    have h0 : u.length = 0 ∨ v.length = 0 := by omega
    rcases h0 with h | h
    · exact hu (List.length_eq_zero.mp h)
    · exact hv (List.length_eq_zero.mp h)

/-- C3: every turn produced by the turn builder has user and assistant
version lists of equal length whenever both are non-empty; both displayed
lists arise from the anchor's sorted full version lists by truncating each
to the minimum of the two counts when that minimum is positive, and when
the minimum is zero (one side empty) the other side is retained in
full. -/
theorem turn_pairing_invariant (msgs : List Message) (t : Turn) (ht : t ∈ buildTurns msgs) :
    (t.userVersions ≠ [] → t.assistantVersions ≠ [] →
        t.userVersions.length = t.assistantVersions.length) ∧
    (∀ e, getAnchor (collectAnchors msgs).1 t.anchorUserId = some e →
      (0 < min (sortByCreatedAt e.userVersions).length
            (sortByCreatedAt e.assistantVersions).length →
          t.userVersions =
            (sortByCreatedAt e.userVersions).take
              (min (sortByCreatedAt e.userVersions).length
                (sortByCreatedAt e.assistantVersions).length) ∧
          t.assistantVersions =
            (sortByCreatedAt e.assistantVersions).take
              (min (sortByCreatedAt e.userVersions).length
                (sortByCreatedAt e.assistantVersions).length)) ∧
      (min (sortByCreatedAt e.userVersions).length
          (sortByCreatedAt e.assistantVersions).length = 0 →
          t.userVersions = sortByCreatedAt e.userVersions ∧
          t.assistantVersions = sortByCreatedAt e.assistantVersions)) := by
  rw [buildTurns_eq] at ht
  rcases List.mem_map.mp ht with ⟨a, ha, rfl⟩
  constructor
  · intro hu hv
    rw [mkTurn_userVersions] at hu ⊢
    rw [mkTurn_assistantVersions] at hv ⊢
    exact pair_trunc_length _ _ hu hv
  · intro e he
    rw [mkTurn_anchorUserId] at he
    have hd : (getAnchor (collectAnchors msgs).1 a).getD ⟨[], []⟩ = e := by
      rw [he]
      rfl
    constructor
    · intro hp
      constructor
      · rw [mkTurn_userVersions, hd, if_pos hp]
      · rw [mkTurn_assistantVersions, hd, if_pos hp]
    · intro hp
      have hp2 : ¬ 0 < min (sortByCreatedAt e.userVersions).length
          (sortByCreatedAt e.assistantVersions).length := by omega
      constructor
      · rw [mkTurn_userVersions, hd, if_neg hp2]
      · rw [mkTurn_assistantVersions, hd, if_neg hp2]

/-- Witness for C3: the example turn with three user versions and two
assistant replies is displayed as two aligned pairs. -/
theorem turn_pairing_invariant_witness :
    turnPairingExample.userVersions.length = turnPairingExample.assistantVersions.length :=
  (turn_pairing_invariant msgsPairingExample turnPairingExample (by decide)).1
    (by decide) (by decide)

/-! ### Claim C6: version-index clamp and no-op -/

theorem lookupIdx_setIdx_self (st : VersionIndices) (k v : Nat) :
    lookupIdx (setIdx st k v) k = some v := by
  induction st with
  | nil => simp [setIdx, lookupIdx, List.find?]
  | cons p rest ih =>
      by_cases h : p.1 = k
      · simp [setIdx, h, lookupIdx, List.find?]
      · simp only [setIdx, if_neg h]
        unfold lookupIdx at ih ⊢
        simp only [List.find?]
        rw [decide_eq_false h]
        exact ih

theorem lookupIdx_setIdx_ne (st : VersionIndices) (k v j : Nat) (hj : ¬ j = k) :
    lookupIdx (setIdx st k v) j = lookupIdx st j := by
  have hkj : (decide (k = j)) = false := decide_eq_false fun h => hj h.symm
  induction st with
  | nil =>
      unfold setIdx lookupIdx
      simp only [List.find?, hkj]
  | cons p rest ih =>
      by_cases h : p.1 = k
      · unfold lookupIdx
        simp only [setIdx, if_pos h, List.find?, h, hkj]
      · simp only [setIdx, if_neg h]
        unfold lookupIdx at ih ⊢
        simp only [List.find?]
        cases hpj : decide (p.1 = j) with
        | true => rfl
        | false => exact ih

theorem computedIndex_lt (s : VersionIndices) (a : Nat) (d : Direction) (total : Nat)
    (h1 : 1 ≤ total) (hcur : ∀ i, lookupIdx s a = some i → i < total) :
    (computedIndex s a d total).2 < total := by
  unfold computedIndex
  have hc : (lookupIdx s a).getD (total - 1) < total := by
    cases hl : lookupIdx s a with
    | none => simpa using by omega
    | some i =>
        have := hcur i hl
        simpa using this
  cases d with
  | prev =>
      simp only
      omega
  | next =>
      simp only
      omega

theorem handleChange_keeps_range (totals : Nat → Nat) (s : VersionIndices) (a : Nat)
    (d : Direction) (hinv : ∀ k i, lookupIdx s k = some i → i < totals k) :
    ∀ k i, lookupIdx (handleTurnVersionChange s a d (totals a)) k = some i → i < totals k := by
  intro k i hk
  unfold handleTurnVersionChange at hk
  by_cases hg : a = 0 ∨ totals a ≤ 1
  · rw [if_pos hg] at hk
    exact hinv k i hk
  · rw [if_neg hg] at hk
    by_cases hne : (computedIndex s a d (totals a)).2 = (computedIndex s a d (totals a)).1
    · rw [if_pos hne] at hk
      exact hinv k i hk
    · rw [if_neg hne] at hk
      by_cases hka : k = a
      · subst hka
        rw [lookupIdx_setIdx_self] at hk
        have hi : i = (computedIndex s k d (totals k)).2 := (Option.some.inj hk).symm
        have hb : (computedIndex s k d (totals k)).2 < totals k :=
          computedIndex_lt s k d (totals k) (by omega) (fun j hj => hinv k j hj)
        omega
      · rw [lookupIdx_setIdx_ne _ _ _ _ hka] at hk
        exact hinv k i hk

/-- C6: over any sequence of prev/next navigation calls the stored version
index of every anchor stays below its total version count, hence the
displayed index (stored, or the default last index) stays within
`[0, totalVersions - 1]`; moreover a call whose computed index equals the
current index returns the state object unchanged. -/
theorem version_index_clamp_and_noop (totals : Nat → Nat) (st : VersionIndices)
    (calls : List (Nat × Direction))
    (hinv : ∀ k i, lookupIdx st k = some i → i < totals k) :
    (∀ k i, lookupIdx (runCalls totals st calls) k = some i → i < totals k) ∧
    (∀ k, 1 ≤ totals k →
      (lookupIdx (runCalls totals st calls) k).getD (totals k - 1) < totals k) ∧
    (∀ (s : VersionIndices) (a : Nat) (d : Direction) (total : Nat),
      (computedIndex s a d total).2 = (computedIndex s a d total).1 →
      handleTurnVersionChange s a d total = s) := by
  have main :
      ∀ (calls : List (Nat × Direction)) (st : VersionIndices),
        (∀ k i, lookupIdx st k = some i → i < totals k) →
        ∀ k i, lookupIdx (runCalls totals st calls) k = some i → i < totals k := by
    intro calls
    induction calls with
    | nil => intro st h; exact h
    | cons c rest ih =>
        intro st h
        exact ih _ (handleChange_keeps_range totals st c.1 c.2 h)
  refine ⟨main calls st hinv, ?_, ?_⟩
  · intro k h1
    cases hl : lookupIdx (runCalls totals st calls) k with
    | none => simpa using by omega
    | some i =>
        have := main calls st hinv k i hl
        simpa using this
  · intro s a d total h
    unfold handleTurnVersionChange
    by_cases hg : a = 0 ∨ total ≤ 1
    · rw [if_pos hg]
    · rw [if_neg hg, if_pos h]

/-- Witness for C6: three navigation calls on anchor 1 with three versions
starting from the empty state leave the displayed index within bounds. -/
theorem version_index_clamp_and_noop_witness :
    1 ≤ 3 ∧
    (lookupIdx
        (runCalls (fun _ => 3) []
          [(1, Direction.prev), (1, Direction.prev), (1, Direction.next)]) 1).getD (3 - 1) < 3 :=
  ⟨by decide,
    (version_index_clamp_and_noop (fun _ => 3) []
        [(1, Direction.prev), (1, Direction.prev), (1, Direction.next)]
        (fun _ _ h => Option.noConfusion h)).2.1 1 (by decide)⟩

end ChatCore
